import Mathlib

/-!
Verification development for the claude-rio prompt-matching pipeline.

The JavaScript sources are shallowly embedded: JS values are modelled by the

set_option maxHeartbeats 1000000

inductive `JSVal` (numbers as rationals, objects as association lists), each
source function becomes a Lean definition of the same name, and the stateful
handler becomes a pure function from its parsed stdin payload and the matcher
behaviours to a `RunOutput` record (exit code plus the optional stdout reply).
-/

/-- Model of a JavaScript value as used by the pipeline: `undefined`, `null`,
booleans, numbers (modelled as rationals; `NaN` is not representable),
strings, and objects as association lists with unique keys. -/
inductive JSVal where
  | undefined
  | null
  | bool (b : Bool)
  | num (q : ℚ)
  | str (s : String)
  | obj (fields : List (String × JSVal))

/-- Property access `v[k]`: on an object, the first binding of the key
(JS object keys are unique); on anything else, `undefined`. -/
def JSVal.get (v : JSVal) (k : String) : JSVal :=
  match v with
  | .obj fs => (fs.lookup k).getD .undefined
  | _ => .undefined

/-- JavaScript truthiness: `undefined`, `null`, `false`, `0` and `""` are
falsy; every other modelled value is truthy. -/
def JSVal.truthy : JSVal → Bool
  | .undefined => false
  | .null => false
  | .bool b => b
  | .num q => decide (q ≠ 0)
  | .str s => decide (s ≠ "")
  | .obj _ => true

/-- Whether the value is `undefined` or `null` (the validators' presence
check `x === undefined || x === null`). -/
def JSVal.isMissing : JSVal → Bool
  | .undefined => true
  | .null => true
  | _ => false

/-- Whether the value is a string. -/
def JSVal.isStr : JSVal → Bool
  | .str _ => true
  | _ => false

/-- Whether the value is a number. -/
def JSVal.isNum : JSVal → Bool
  | .num _ => true
  | _ => false

/-- Whether the value is a boolean (`typeof x === "boolean"`). -/
def JSVal.isBool : JSVal → Bool
  | .bool _ => true
  | _ => false

/-- Strict equality `v === s` against a string literal. -/
def JSVal.eqStr (v : JSVal) (s : String) : Bool :=
  match v with
  | .str t => t == s
  | _ => false

/-- The underlying string of a string value, `""` otherwise. -/
def JSVal.strD : JSVal → String
  | .str s => s
  | _ => ""

/-- The underlying rational of a number value, `0` otherwise. -/
def JSVal.numD : JSVal → ℚ
  | .num q => q
  | _ => 0

/-- JS `typeof` (note `typeof null === "object"`). -/
def JSVal.typeName : JSVal → String
  | .undefined => "undefined"
  | .null => "object"
  | .bool _ => "boolean"
  | .num _ => "number"
  | .str _ => "string"
  | .obj _ => "object"

/-- Whether the value passes `result && typeof result === "object"`:
in this model exactly the objects. -/
def isObjV : JSVal → Bool
  | .obj _ => true
  | _ => false

/-- String coercion as performed by JS template interpolation, restricted to
the values the formatter can meet (display of numbers differs from JS in
formatting only). -/
def jsShow : JSVal → String
  | .undefined => "undefined"
  | .null => "null"
  | .bool b => toString b
  | .num q => toString q
  | .str s => s
  | .obj _ => "[object Object]"

/-- Character-list version of string-prefix testing. -/
def listIsPre : List Char → List Char → Bool
  | [], _ => true
  | _ :: _, [] => false
  | a :: s, b :: t => a == b && listIsPre s t

/-- Whether `sub` occurs as a contiguous run inside the list. -/
def listHasSub (sub : List Char) : List Char → Bool
  | [] => sub.isEmpty
  | c :: t => listIsPre sub (c :: t) || listHasSub sub t

/-- JS `String.prototype.includes`: substring containment. -/
def strContains (s pat : String) : Bool :=
  listHasSub pat.toList s.toList

/-- JS `String.prototype.trim`: strip leading and trailing whitespace,
modelled over the character list so that it evaluates by `decide`. -/
def String.jsTrim (s : String) : String :=
  String.mk (((s.toList.dropWhile Char.isWhitespace).reverse.dropWhile Char.isWhitespace).reverse)

/-- Structured validation error: the field the source's error message names,
plus the message text itself (the source returns the message as a string with
the field name embedded in it). -/
structure VErr where
  field : String
  message : String

/-- Shorthand for an error result carrying a field and message. -/
def vErrOf (f m : String) : Except VErr JSVal := .error ⟨f, m⟩

/-- The field named by a validation outcome, if it failed. -/
def errField : Except VErr JSVal → Option String
  | .error e => some e.field
  | .ok _ => none

/-- Per-field checks of `validateMatcherResult` (v1.0 runtime validator,
hooks/UserPromptSubmit/validations.js) for the `version` field: presence,
string type, non-empty after trimming, literal `"1.0"`. -/
def checkVersion10 (v : JSVal) : Option String :=
  if v.isMissing then
    some "Matcher result must have a \"version\" field (cannot be undefined or null)"
  else if !(v.isStr) then
    some ("Matcher result \"version\" must be a string (got type: " ++ v.typeName ++ ")")
  else if v.strD.jsTrim == "" then
    some "Matcher result \"version\" must be a non-empty string"
  else if !(v.eqStr "1.0") then
    some ("Matcher result \"version\" must be \"1.0\" (got: " ++ v.strD ++ ")")
  else none

/-- Per-field check for `relevant`: presence, boolean type. -/
def checkRelevant (v : JSVal) : Option String :=
  if v.isMissing then
    some "Matcher result must have a \"relevant\" field (cannot be undefined or null)"
  else if !(v.isBool) then
    some ("Matcher result \"relevant\" must be a boolean (got type: " ++ v.typeName ++ ")")
  else none

/-- The `priority` enum of the v1.0 schema. -/
def validPriorities : List String := ["critical", "high", "medium", "low"]

/-- The `relevance` enum of the v1.0 schema. -/
def validRelevances : List String := ["high", "medium", "low"]

/-- Per-field check for `priority`: presence, then `includes` membership
(the source has no separate type or trim step for this field; a non-string
simply fails the strict-equality membership test). -/
def checkPriority (v : JSVal) : Option String :=
  if v.isMissing then
    some "Matcher result must have a \"priority\" field (cannot be undefined or null)"
  else if !(validPriorities.any (fun p => v.eqStr p)) then
    some ("Matcher result \"priority\" must be one of: critical, high, medium, low (got: " ++ jsShow v ++ ")")
  else none

/-- Per-field check for `relevance`: presence, then `includes` membership. -/
def checkRelevance (v : JSVal) : Option String :=
  if v.isMissing then
    some "Matcher result must have a \"relevance\" field (cannot be undefined or null)"
  else if !(validRelevances.any (fun p => v.eqStr p)) then
    some ("Matcher result \"relevance\" must be one of: high, medium, low (got: " ++ jsShow v ++ ")")
  else none

/-- Embedding of `validateMatcherResult` from
hooks/UserPromptSubmit/validations.js (the v1.0 runtime validator): object
check, then `version`, `relevant`, `priority`, `relevance` in the source's
early-return order. The `type` field is never examined. -/
def validateMatcherResult (result : JSVal) : Except VErr JSVal :=
  if !(result.truthy && result.typeName == "object") then
    vErrOf "result" ("Matcher result must be an object (got type: " ++ result.typeName ++ ")")
  else
    match checkVersion10 (result.get "version") with
    | some m => vErrOf "version" m
    | none =>
      match checkRelevant (result.get "relevant") with
      | some m => vErrOf "relevant" m
      | none =>
        match checkPriority (result.get "priority") with
        | some m => vErrOf "priority" m
        | none =>
          match checkRelevance (result.get "relevance") with
          | some m => vErrOf "relevance" m
          | none => .ok result

/-- Stage order claimed by the specification for one mandatory field:
presence (not undefined and not null), then correct primitive type, then
(string fields) non-emptiness after trimming, then membership in the allowed
enum or literal set. Instantiated for `version` with literal set containing
exactly the active version string. -/
def goodVersionSpec (active : String) (v : JSVal) : Bool :=
  !(v.isMissing) && v.isStr && !(v.strD.jsTrim == "") && v.eqStr active

/-- Spec stage order for `relevant`: presence, then boolean type (no string
stages and no enum restriction beyond the type itself). -/
def goodRelevantSpec (v : JSVal) : Bool :=
  !(v.isMissing) && v.isBool

/-- Spec stage order for a mandatory string-enum field: presence, string
type, non-empty after trimming, enum membership. -/
def goodEnumSpec (enum : List String) (v : JSVal) : Bool :=
  !(v.isMissing) && v.isStr && !(v.strD.jsTrim == "") && enum.any (fun p => v.eqStr p)

/-- First failing field of a v1.0 matcher result under the specification's
per-field stage order, the fields taken in the validator's fixed order
`version`, `relevant`, `priority`, `relevance` (the leading object check is
reported as the pseudo-field `result`). -/
def specFirstFailV1 (r : JSVal) : Option String :=
  if !(isObjV r) then some "result"
  else if !(goodVersionSpec "1.0" (r.get "version")) then some "version"
  else if !(goodRelevantSpec (r.get "relevant")) then some "relevant"
  else if !(goodEnumSpec validPriorities (r.get "priority")) then some "priority"
  else if !(goodEnumSpec validRelevances (r.get "relevance")) then some "relevance"
  else none

/-- Per-field check of the v2.0 validator (cli/utils/matcher-validator.js)
for the `version` field: presence, string type, non-empty after trimming,
literal `"2.0"`. -/
def checkVersion20 (v : JSVal) : Option String :=
  if v.isMissing then
    some "Matcher result must have a \"version\" field (cannot be undefined or null)"
  else if !(v.isStr) then
    some ("Matcher result \"version\" must be a string (got type: " ++ v.typeName ++ ")")
  else if v.strD.jsTrim == "" then
    some "Matcher result \"version\" must be a non-empty string"
  else if !(v.eqStr "2.0") then
    some ("Matcher result \"version\" must be \"2.0\" (got: " ++ v.strD ++ ")")
  else none

/-- Per-field check for `matchCount`: presence, number type, integer
(`Number.isInteger`, modelled as denominator one), non-negative. -/
def checkMatchCount (v : JSVal) : Option String :=
  if v.isMissing then
    some "Matcher result must have a \"matchCount\" field (cannot be undefined or null)"
  else if !(v.isNum) then
    some ("Matcher result \"matchCount\" must be a number (got type: " ++ v.typeName ++ ")")
  else if !(v.numD.den == 1) then
    some "Matcher result \"matchCount\" must be an integer"
  else if v.numD < 0 then
    some "Matcher result \"matchCount\" must be non-negative"
  else none

/-- The optional `type` enum of the v2.0 schema. -/
def validTypes : List String := ["skill", "agent", "command"]

/-- Per-field check for the optional `type` field: only when present and
non-null, membership in the `skill`/`agent`/`command` enum. -/
def checkTypeOpt (v : JSVal) : Option String :=
  if !(v.isMissing) && !(validTypes.any (fun p => v.eqStr p)) then
    some ("Matcher result \"type\" must be one of: skill, agent, command (got: " ++ jsShow v ++ ")")
  else none

/-- Embedding of the v2.0 `validateMatcherResult` from
cli/utils/matcher-validator.js: object check, then `version`, `matchCount`
and the optional `type` in the source's early-return order. -/
def validateMatcherResultV2 (result : JSVal) : Except VErr JSVal :=
  if !(result.truthy && result.typeName == "object") then
    vErrOf "result" ("Matcher result must be an object (got type: " ++ result.typeName ++ ")")
  else
    match checkVersion20 (result.get "version") with
    | some m => vErrOf "version" m
    | none =>
      match checkMatchCount (result.get "matchCount") with
      | some m => vErrOf "matchCount" m
      | none =>
        match checkTypeOpt (result.get "type") with
        | some m => vErrOf "type" m
        | none => .ok result

/-- Spec stage order for `matchCount`: presence, number type, then
membership in the allowed value set (the non-negative integers). -/
def goodMatchCountSpec (v : JSVal) : Bool :=
  !(v.isMissing) && v.isNum && v.numD.den == 1 && decide (0 ≤ v.numD)

/-- Spec reading of the optional `type` field: absent, or a member of the
`skill`/`agent`/`command` enum. -/
def goodTypeOptSpec (v : JSVal) : Bool :=
  v.isMissing || validTypes.any (fun p => v.eqStr p)

/-- First failing field of a v2.0 matcher result under the specification's
per-field stage order, the fields taken in the validator's fixed order
`version`, `matchCount`, `type`. -/
def specFirstFailV2 (r : JSVal) : Option String :=
  if !(isObjV r) then some "result"
  else if !(goodVersionSpec "2.0" (r.get "version")) then some "version"
  else if !(goodMatchCountSpec (r.get "matchCount")) then some "matchCount"
  else if !(goodTypeOptSpec (r.get "type")) then some "type"
  else none

/-- Whether a payload field value fails the mandatory non-empty-string rule:
missing, non-string, or empty after trimming. -/
def isBadStr (v : JSVal) : Bool :=
  v.isMissing || !(v.isStr) || v.strD.jsTrim == ""

/-- Modelled from the spec: the shared helper module hooks/utils/validations.js
(exporting `requireNonEmptyString`) is not among the source files, only its
caller `validatePayload` is. Per the specification a mandatory payload field
is a required non-empty string: present (not undefined/null), of string type,
and non-empty after trimming; on success the value is returned. -/
def requireNonEmptyString (v : JSVal) (field ctx : String) : Except VErr String :=
  if v.isMissing then
    .error ⟨field, ctx ++ ": " ++ field ++ " is required"⟩
  else if !(v.isStr) then
    .error ⟨field, ctx ++ ": " ++ field ++ " must be a string"⟩
  else if v.strD.jsTrim == "" then
    .error ⟨field, ctx ++ ": " ++ field ++ " must be a non-empty string"⟩
  else .ok v.strD

/-- Modelled from the spec: `requireNonEmptyObject` from the same missing
helper module; the payload must be an object with at least one key. -/
def requireNonEmptyObject (v : JSVal) (field ctx : String) : Except VErr JSVal :=
  match v with
  | .obj [] => .error ⟨field, ctx ++ ": " ++ field ++ " must be a non-empty object"⟩
  | .obj fs => .ok (.obj fs)
  | _ => .error ⟨field, ctx ++ ": " ++ field ++ " must be a non-empty object"⟩

/-- The validated trigger payload (hooks/UserPromptSubmit/types.js). -/
structure UserPromptSubmitPayload where
  sessionId : String
  transcriptPath : String
  cwd : String
  permissionMode : String
  hookEventName : String
  prompt : String

/-- Embedding of `validatePayload` from
hooks/UserPromptSubmit/validations.js: object check, then the six mandatory
fields in the source's order `prompt`, `cwd`, `session_id`,
`transcript_path`, `permission_mode`, `hook_event_name`. -/
def validatePayload (input : JSVal) : Except VErr UserPromptSubmitPayload :=
  match requireNonEmptyObject input "payload" "validateUserPromptSubmitPayload" with
  | .error e => .error e
  | .ok base =>
    match requireNonEmptyString (base.get "prompt") "prompt" "validateUserPromptSubmitPayload" with
    | .error e => .error e
    | .ok prompt =>
      match requireNonEmptyString (base.get "cwd") "cwd" "validateUserPromptSubmitPayload" with
      | .error e => .error e
      | .ok cwd =>
        match requireNonEmptyString (base.get "session_id") "session_id"
            "validateUserPromptSubmitPayload" with
        | .error e => .error e
        | .ok sessionId =>
          match requireNonEmptyString (base.get "transcript_path") "transcript_path"
              "validateUserPromptSubmitPayload" with
          | .error e => .error e
          | .ok transcriptPath =>
            match requireNonEmptyString (base.get "permission_mode") "permission_mode"
                "validateUserPromptSubmitPayload" with
            | .error e => .error e
            | .ok permissionMode =>
              match requireNonEmptyString (base.get "hook_event_name") "hook_event_name"
                  "validateUserPromptSubmitPayload" with
              | .error e => .error e
              | .ok hookEventName =>
                .ok ⟨sessionId, transcriptPath, cwd, permissionMode, hookEventName, prompt⟩

/-- The shared invocation context the handler builds once per run
(handler.js lines 81-96); the memoized transcript-accessor namespace is not
modelled as data — matcher behaviours are abstract functions of this
context, which subsumes whatever they read through the accessors. -/
structure MatcherArguments where
  prompt : String
  cwd : String
  transcriptPath : String
  permissionMode : String
  sessionId : String
  schemaVersion : String

/-- The context object built by `main` from the validated payload, with
`meta.schemaVersion` fixed to `"1.0"`. -/
def contextOf (payload : UserPromptSubmitPayload) : MatcherArguments :=
  { prompt := payload.prompt
    cwd := payload.cwd
    transcriptPath := payload.transcriptPath
    permissionMode := payload.permissionMode
    sessionId := payload.sessionId
    schemaVersion := "1.0" }

/-- One discovered matcher file record as built by the handler's
`matcherFiles` mapping. -/
structure MatcherInfo where
  name : String
  matcherPath : String
  detectedType : String

/-- Outcome of invoking a matcher callable: a thrown exception (sync or
async, both are caught by `wrapAsync`) or a returned value. -/
inductive ExecOutcome where
  | throws
  | returns (v : JSVal)

/-- Behaviour of the module at a matcher path: `require` throws
(`wrapSync` failure), the export is neither a function nor an object with a
callable `match` property (`validateMatcherModule` failure), or it
normalizes to a callable, modelled as a function of the shared context. -/
inductive MatcherBehavior where
  | loadFails
  | notCallable
  | callable (f : MatcherArguments → ExecOutcome)

/-- One surviving item as pushed by `runMatchers`: name from discovery,
`priority`/`relevance` copied from the validated result, `type` the raw
result `type` when truthy, else the path-detected type. -/
structure ActiveSkill where
  name : String
  priority : String
  relevance : String
  type : JSVal

/-- Embedding of `runMatchers` from hooks/UserPromptSubmit/handler.js:
per matcher, load, export validation, invocation and result validation each
skip the matcher on failure and continue with the rest; a validated result
contributes an item exactly when its `relevant` field is truthy. -/
def runMatchers (matcherFiles : List (MatcherInfo × MatcherBehavior))
    (context : MatcherArguments) : List ActiveSkill :=
  match matcherFiles with
  | [] => []
  | (info, b) :: rest =>
    match b with
    | .loadFails => runMatchers rest context
    | .notCallable => runMatchers rest context
    | .callable f =>
      match f context with
      | .throws => runMatchers rest context
      | .returns v =>
        match validateMatcherResult v with
        | .error _ => runMatchers rest context
        | .ok r =>
          if (r.get "relevant").truthy then
            { name := info.name
              priority := (r.get "priority").strD
              relevance := (r.get "relevance").strD
              type := if (r.get "type").truthy then r.get "type"
                      else .str info.detectedType } :: runMatchers rest context
          else runMatchers rest context

/-- Relevance tier lookup of the legacy formatter
(`relevanceOrder = { high: 0, medium: 1, low: 2 }`); a string outside the
enum maps to a sentinel last bucket (the source would compare `undefined`,
which the validator rules out). -/
def relevanceOrder (s : String) : Nat :=
  if s == "high" then 0 else if s == "medium" then 1 else if s == "low" then 2 else 3

/-- Embedding of `group.sort(sortByRelevance)`: `Array.prototype.sort` is
stable (ES2019), and a stable sort by a key drawn from `{0,1,2,3}` is
exactly bucket concatenation in key order. -/
def sortByRelevance (l : List ActiveSkill) : List ActiveSkill :=
  (l.filter (fun s => relevanceOrder s.relevance == 0)) ++
    (l.filter (fun s => relevanceOrder s.relevance == 1)) ++
    (l.filter (fun s => relevanceOrder s.relevance == 2)) ++
    (l.filter (fun s => relevanceOrder s.relevance == 3))

/-- The `critical` priority group of formatter.js, sorted by relevance. -/
def criticalGroup (items : List ActiveSkill) : List ActiveSkill :=
  sortByRelevance (items.filter (fun s => s.priority == "critical"))

/-- The `high` priority group of formatter.js, sorted by relevance. -/
def highGroup (items : List ActiveSkill) : List ActiveSkill :=
  sortByRelevance (items.filter (fun s => s.priority == "high"))

/-- The `medium` priority group of formatter.js, sorted by relevance. -/
def mediumGroup (items : List ActiveSkill) : List ActiveSkill :=
  sortByRelevance (items.filter (fun s => s.priority == "medium"))

/-- The `low` priority group of formatter.js, sorted by relevance. -/
def lowGroup (items : List ActiveSkill) : List ActiveSkill :=
  sortByRelevance (items.filter (fun s => s.priority == "low"))

/-- One numbered line of the critical section (items whose `type` is
neither `skill` nor `agent` produce no line but still consume an index). -/
def criticalLine (idx : Nat) (item : ActiveSkill) : String :=
  if item.type.eqStr "skill" then
    toString (idx + 1) ++ ". Invoke the Skill tool with parameter: skill=\"" ++ item.name ++ "\"\n"
  else if item.type.eqStr "agent" then
    toString (idx + 1) ++ ". Delegate to subagent using Task tool with parameter: subagent_type=\"" ++
      item.name ++ "\"\n"
  else ""

/-- One line of the high-priority section. -/
def highLine (item : ActiveSkill) : String :=
  if item.type.eqStr "skill" then
    "- " ++ item.name ++ ": Use Skill tool with skill=\"" ++ item.name ++ "\"\n"
  else if item.type.eqStr "agent" then
    "- " ++ item.name ++ ": Delegate using Task tool with subagent_type=\"" ++ item.name ++ "\"\n"
  else ""

/-- One line of the medium-priority section. -/
def mediumLine (item : ActiveSkill) : String :=
  if item.type.eqStr "skill" then
    "- " ++ item.name ++ ": Skill tool, skill=\"" ++ item.name ++ "\"\n"
  else if item.type.eqStr "agent" then
    "- " ++ item.name ++ ": Task tool, subagent_type=\"" ++ item.name ++ "\"\n"
  else ""

/-- One line of the low-priority section (rendered for every type). -/
def lowLine (item : ActiveSkill) : String :=
  "- " ++ item.name ++ " (" ++ jsShow item.type ++ ")\n"

/-- Embedding of `formatActiveSkillsAsDirective` from
hooks/UserPromptSubmit/formatter.js (the legacy tiered formatter). The
argument is optional to model the `!items` guard; the unused `skills` and
`agents` filters of the source (dead code) are omitted. -/
def formatActiveSkillsAsDirective (items? : Option (List ActiveSkill)) : String :=
  match items? with
  | none => ""
  | some items =>
    if items.length == 0 then ""
    else
      let critical := criticalGroup items
      let high := highGroup items
      let medium := mediumGroup items
      let low := lowGroup items
      let criticalSection :=
        if critical.length > 0 then
          "BEFORE PROCEEDING WITH THIS REQUEST:\n\n" ++
            "CRITICAL REQUIREMENT - Auto-invoke immediately:\n" ++
            String.join (critical.enum.map (fun p => criticalLine p.1 p.2)) ++
            "\n" ++ "IMPORTANT:\n" ++
            "- These MUST be invoked as your FIRST action\n" ++
            "- Wait for each to complete its workflow\n" ++
            "- Do NOT proceed with manual tool usage that these handle\n" ++ "\n"
        else ""
      let highSection :=
        if high.length > 0 then
          (if critical.length == 0 then "BEFORE PROCEEDING:\n\n" else "") ++
            "STRONGLY RECOMMENDED:\n" ++ String.join (high.map highLine) ++ "\n"
        else ""
      let mediumSection :=
        if medium.length > 0 then
          "SUGGESTED (consider invoking):\n" ++ String.join (medium.map mediumLine) ++ "\n"
        else ""
      let lowSection :=
        if low.length > 0 then
          "OPTIONAL (available if needed):\n" ++ String.join (low.map lowLine) ++ "\n"
        else ""
      (criticalSection ++ highSection ++ mediumSection ++ lowSection).jsTrim

/-- One numbered line of the v2.0 flat formatter, with the
`SlashCommand` fallback for any type other than `skill` and `agent`. -/
def rankedLine (idx : Nat) (item : ActiveSkill) : String :=
  let toolInstruction :=
    if item.type.eqStr "skill" then "Skill tool, skill=\"" ++ item.name ++ "\""
    else if item.type.eqStr "agent" then "Task tool, subagent_type=\"" ++ item.name ++ "\""
    else "SlashCommand tool, command=\"/" ++ item.name ++ "\""
  toString (idx + 1) ++ ". " ++ item.name ++ ": " ++ toolInstruction ++ "\n"

/-- Embedding of `formatActiveSkillsAsDirective` from
hooks/UserPromptSubmit/formatter.cjs (the current flat ranked formatter);
items arrive pre-sorted by score. -/
def formatActiveSkillsAsDirectiveV2 (items? : Option (List ActiveSkill)) : String :=
  match items? with
  | none => ""
  | some items =>
    if items.length == 0 then ""
    else
      "━━━━━━━━━━━━━━━━━━━━━━━━━━━━━━━━━━━━━━━\n" ++
        "🎯 RELEVANT SKILLS/AGENTS/COMMANDS\n" ++
        "━━━━━━━━━━━━━━━━━━━━━━━━━━━━━━━━━━━━━━━\n\n" ++
        String.join (items.enum.map (fun p => rankedLine p.1 p.2)) ++
        "\n━━━━━━━━━━━━━━━━━━━━━━━━━━━━━━━━━━━━━━━\n" ++
        "ACTION: Consider using the above tools BEFORE responding\n" ++
        "━━━━━━━━━━━━━━━━━━━━━━━━━━━━━━━━━━━━━━━"

/-- The structured stdout reply object. -/
structure HookSpecificOutput where
  hookEventName : String
  additionalContext : String

/-- Observable outcome of one handler run: the process exit code and the
JSON object written to stdout, if any (modelled structurally rather than as
serialized text). -/
structure RunOutput where
  exitCode : Nat
  stdout : Option HookSpecificOutput

/-- Embedding of `main` from hooks/UserPromptSubmit/handler.js, from the
parsed stdin payload on: payload validation failure exits 1 via `fail`;
otherwise the matchers run against the shared context and a reply is
written exactly when at least one item survived. -/
def mainRun (input : JSVal) (matcherFiles : List (MatcherInfo × MatcherBehavior)) : RunOutput :=
  match validatePayload input with
  | .error _ => ⟨1, none⟩
  | .ok payload =>
    let context := contextOf payload
    let activeItems := runMatchers matcherFiles context
    if activeItems.length > 0 then
      ⟨0, some ⟨"UserPromptSubmit", formatActiveSkillsAsDirective (some activeItems)⟩⟩
    else
      ⟨0, none⟩

/-- Suffix test over character lists, evaluable by `decide`. -/
def strEndsWith (s suf : String) : Bool :=
  listIsPre suf.toList.reverse s.toList.reverse

/-- Split a character list on a separator character (kept evaluable by the
kernel, unlike `String.splitOn`). -/
def splitOnChar (c : Char) : List Char → List (List Char)
  | [] => [[]]
  | x :: t =>
    match splitOnChar c t with
    | [] => if x == c then [[], []] else [[x]]
    | h :: rt => if x == c then [] :: h :: rt else (x :: h) :: rt

/-- The slash-separated segments of a path. -/
def pathSegments (p : String) : List String :=
  (splitOnChar '/' p.toList).map String.mk

/-- Node `path.dirname` for plain slash-separated paths (the handler only
meets absolute POSIX-style matcher paths): drop the last segment. -/
def pathDirname (p : String) : String :=
  String.intercalate "/" ((pathSegments p).dropLast)

/-- Node `path.basename` for plain slash-separated paths: the last
segment. -/
def pathBasename (p : String) : String :=
  ((pathSegments p).getLast?).getD ""

/-- Embedding of the handler's `matcherFiles` mapping
(handler.js lines 60-71): `name` is the directory two levels above the
matcher file, `detectedType` is `agent` exactly when the path contains a
`.claude/agents` segment (POSIX or Windows separators), else `skill`. -/
def matcherFileOfPath (matcherPath : String) : MatcherInfo :=
  let betterHooksDir := pathDirname matcherPath
  let itemDir := pathDirname betterHooksDir
  let name := pathBasename itemDir
  let isAgent := strContains matcherPath "/.claude/agents/" ||
    strContains matcherPath "\\.claude\\agents\\"
  { name := name
    matcherPath := matcherPath
    detectedType := if isAgent then "agent" else "skill" }

/-- The whole mapping over the `MATCHER_PATHS` list: one record per path,
with no deduplication of any kind. -/
def matcherFilesOfPaths (paths : List String) : List MatcherInfo :=
  paths.map matcherFileOfPath

/-- Abstract filesystem for the shell fast filter: existing, readable root
directories together with the relative paths of the regular files beneath
them; a root that is missing or unreadable is simply absent (its `find`
error is suppressed by `2>/dev/null || true`). -/
structure FileSys where
  roots : List (String × List String)

/-- The skill-matcher `find` of hook.sh over one root:
`-type f -path "*/rio/UserPromptSubmit.matcher.cjs"`. -/
def findSkillMatchers (fs : FileSys) (root : String) : List String :=
  match fs.roots.lookup root with
  | some rels =>
    (rels.map (fun rel => root ++ "/" ++ rel)).filter
      (fun p => strEndsWith p "/rio/UserPromptSubmit.matcher.cjs")
  | none => []

/-- The agent-matcher `find` of hook.sh over one root:
`-maxdepth 1 -type f -name "*.rio.matcher.cjs"` (relative paths without a
separator are exactly the depth-one files). -/
def findAgentMatchers (fs : FileSys) (root : String) : List String :=
  match fs.roots.lookup root with
  | some rels =>
    (rels.filter (fun rel => !(strContains rel "/") && strEndsWith rel ".rio.matcher.cjs")).map
      (fun rel => root ++ "/" ++ rel)
  | none => []

/-- Observable outcome of the fast filter: whether the Node runtime is
launched, and the matcher path list exported to it. -/
structure HookShResult where
  launchedNode : Bool
  matcherPaths : List String

/-- Embedding of hooks/UserPromptSubmit/hook.sh: skill matchers are searched
under the project and user skills roots, agent matchers under the project
and user agents roots (and nothing else is searched); if the combined list
is empty the script exits 0 without launching Node, otherwise it execs the
Node handler with the list in `MATCHER_PATHS`. -/
def hookSh (fs : FileSys) (claudeProjectDir home : String) : HookShResult :=
  let projectSkills := claudeProjectDir ++ "/.claude/skills"
  let userSkills := home ++ "/.claude/skills"
  let projectAgents := claudeProjectDir ++ "/.claude/agents"
  let userAgents := home ++ "/.claude/agents"
  let skillMatchers := findSkillMatchers fs projectSkills ++ findSkillMatchers fs userSkills
  let agentMatchers := findAgentMatchers fs projectAgents ++ findAgentMatchers fs userAgents
  let matchers := skillMatchers ++ agentMatchers
  if matchers.isEmpty then ⟨false, []⟩ else ⟨true, matchers⟩

/-- Modelled from the spec: the current (v2.0) runtime handler
(`handler.cjs`, the scorer) is not among the source files; its scoring is
modelled from the specification §4.6 and the repository documentation
(How Scoring Works): one validated v2.0 result per surviving matcher. -/
structure V2Result where
  name : String
  matchCount : ℕ
  type : String

/-- A ranked suggestion with its relative score. -/
structure RankedItem where
  name : String
  type : String
  score : ℚ

/-- Modelled from the spec: the ranking candidates are exactly the results
with `matchCount > 0`; `matchCount = 0` results are excluded entirely. -/
def candidatesV2 (rs : List V2Result) : List V2Result :=
  rs.filter (fun r => 0 < r.matchCount)

/-- Modelled from the spec: each count is capped at the fixed ceiling 10
before scoring. -/
def cappedCount (m : ℕ) : ℕ := min m 10

/-- Modelled from the spec: the maximum capped count across all
candidates. -/
def maxCappedCount (rs : List V2Result) : ℕ :=
  (candidatesV2 rs).foldr (fun r acc => max (cappedCount r.matchCount) acc) 0

/-- Modelled from the spec: `score = cappedCount / maxCappedCount`. -/
def scoreResults (rs : List V2Result) : List RankedItem :=
  (candidatesV2 rs).map
    (fun r => ⟨r.name, r.type, (cappedCount r.matchCount : ℚ) / (maxCappedCount rs : ℚ)⟩)

/-- Stable descending insertion: an item moves ahead only of strictly
lower scores, so equal scores keep their relative order. -/
def insertByScore (x : RankedItem) : List RankedItem → List RankedItem
  | [] => [x]
  | y :: t => if y.score < x.score then x :: y :: t else y :: insertByScore x t

/-- Modelled from the spec: rank by score, highest first, ties keeping
stable relative order (stable insertion sort). -/
def rankByScore : List RankedItem → List RankedItem
  | [] => []
  | x :: t => insertByScore x (rankByScore t)

/-- Modelled from the spec: the full current-scheme scoring pipeline over
the validated results. -/
def rankMatcherResults (rs : List V2Result) : List RankedItem :=
  rankByScore (scoreResults rs)

/-- Whether the payload passes the `requireNonEmptyObject` gate: an object
with at least one key. -/
def payloadObjOk : JSVal → Bool
  | .obj [] => false
  | .obj (_ :: _) => true
  | _ => false

/-- Whether a matcher behaviour fails at the given context in one of the
per-plugin recoverable ways: load failure, non-callable export, thrown
invocation (sync or async), or schema-invalid returned result. -/
def failsWith (context : MatcherArguments) : MatcherBehavior → Bool
  | .loadFails => true
  | .notCallable => true
  | .callable f =>
    match f context with
    | .throws => true
    | .returns v => !(validateMatcherResult v).isOk

/-- The six mandatory payload fields, in the order the validator checks
them. -/
def mandatoryPayloadFields : List String :=
  ["prompt", "cwd", "session_id", "transcript_path", "permission_mode", "hook_event_name"]

/-- The item order in which the legacy formatter renders its output: the
four priority groups, each relevance-sorted, concatenated in priority
order. -/
def orderedItems (items : List ActiveSkill) : List ActiveSkill :=
  criticalGroup items ++ highGroup items ++ mediumGroup items ++ lowGroup items

/-- The ordering stated by the specification, written from its words:
group by priority tier in the order critical, high, medium, low; within
each tier order by relevance high, medium, low; items of equal priority
and relevance keep their relative input order (each bucket is a filter,
and filters preserve input order). -/
def specC8Order (items : List ActiveSkill) : List ActiveSkill :=
  ((items.filter (fun s => s.priority == "critical")).filter (fun s => s.relevance == "high")) ++
  ((items.filter (fun s => s.priority == "critical")).filter (fun s => s.relevance == "medium")) ++
  ((items.filter (fun s => s.priority == "critical")).filter (fun s => s.relevance == "low")) ++
  ((items.filter (fun s => s.priority == "high")).filter (fun s => s.relevance == "high")) ++
  ((items.filter (fun s => s.priority == "high")).filter (fun s => s.relevance == "medium")) ++
  ((items.filter (fun s => s.priority == "high")).filter (fun s => s.relevance == "low")) ++
  ((items.filter (fun s => s.priority == "medium")).filter (fun s => s.relevance == "high")) ++
  ((items.filter (fun s => s.priority == "medium")).filter (fun s => s.relevance == "medium")) ++
  ((items.filter (fun s => s.priority == "medium")).filter (fun s => s.relevance == "low")) ++
  ((items.filter (fun s => s.priority == "low")).filter (fun s => s.relevance == "high")) ++
  ((items.filter (fun s => s.priority == "low")).filter (fun s => s.relevance == "medium")) ++
  ((items.filter (fun s => s.priority == "low")).filter (fun s => s.relevance == "low"))

theorem truthy_object_iff (v : JSVal) :
    (v.truthy && v.typeName == "object") = isObjV v := by
  cases v <;> simp [JSVal.truthy, JSVal.typeName, isObjV]

theorem checkVersion10_none_iff (v : JSVal) :
    checkVersion10 v = none ↔ goodVersionSpec "1.0" v = true := by
  unfold checkVersion10 goodVersionSpec
  cases v <;>
    simp [JSVal.isStr, JSVal.strD, JSVal.isMissing, JSVal.eqStr]
  case str s =>
    by_cases h1 : s.jsTrim = "" <;> by_cases h2 : s = "1.0" <;> simp_all

theorem checkRelevant_none_iff (v : JSVal) :
    checkRelevant v = none ↔ goodRelevantSpec v = true := by
  unfold checkRelevant goodRelevantSpec
  cases v <;> simp [JSVal.isBool, JSVal.isMissing]

theorem enum_member_trim_ne (enum : List String) (v : JSVal)
    (henum : ∀ s ∈ enum, s.jsTrim ≠ "")
    (h : enum.any (fun p => v.eqStr p) = true) :
    v.isStr = true ∧ v.strD.jsTrim ≠ "" := by
  rcases List.any_eq_true.mp h with ⟨p, hp, hv⟩
  cases v <;> simp [JSVal.eqStr] at hv
  case str s =>
    subst hv
    exact ⟨rfl, henum _ hp⟩

theorem checkPriority_none_iff (v : JSVal) :
    checkPriority v = none ↔ goodEnumSpec validPriorities v = true := by
  unfold checkPriority goodEnumSpec
  by_cases h1 : v.isMissing = true
  · simp [h1]
  · by_cases h2 : validPriorities.any (fun p => v.eqStr p) = true
    · have := enum_member_trim_ne validPriorities v (by decide) h2
      simp [h1, h2, this.1, this.2]
    · simp [h1, h2]

theorem checkRelevance_none_iff (v : JSVal) :
    checkRelevance v = none ↔ goodEnumSpec validRelevances v = true := by
  unfold checkRelevance goodEnumSpec
  by_cases h1 : v.isMissing = true
  · simp [h1]
  · by_cases h2 : validRelevances.any (fun p => v.eqStr p) = true
    · have := enum_member_trim_ne validRelevances v (by decide) h2
      simp [h1, h2, this.1, this.2]
    · simp [h1, h2]

/-- The v1.0 validator reports exactly the specification's first failing
field, the per-field checks read in the claimed stage order. -/
theorem errField_validateMatcherResult (r : JSVal) :
    errField (validateMatcherResult r) = specFirstFailV1 r := by
  unfold validateMatcherResult specFirstFailV1
  rw [truthy_object_iff]
  by_cases hobj : isObjV r = true
  · simp only [hobj, Bool.not_true, Bool.false_eq_true, if_false]
    rcases h1 : checkVersion10 (r.get "version") with _ | m1
    · rw [checkVersion10_none_iff] at h1
      simp only [h1, Bool.not_true, Bool.false_eq_true, if_false]
      rcases h2 : checkRelevant (r.get "relevant") with _ | m2
      · rw [checkRelevant_none_iff] at h2
        simp only [h2, Bool.not_true, Bool.false_eq_true, if_false]
        rcases h3 : checkPriority (r.get "priority") with _ | m3
        · rw [checkPriority_none_iff] at h3
          simp only [h3, Bool.not_true, Bool.false_eq_true, if_false]
          rcases h4 : checkRelevance (r.get "relevance") with _ | m4
          · rw [checkRelevance_none_iff] at h4
            simp [h4, errField]
          · have h4' : ¬ (goodEnumSpec validRelevances (r.get "relevance") = true) := by
              rw [← checkRelevance_none_iff]; simp [h4]
            simp [h4', errField, vErrOf]
        · have h3' : ¬ (goodEnumSpec validPriorities (r.get "priority") = true) := by
            rw [← checkPriority_none_iff]; simp [h3]
          simp [h3', errField, vErrOf]
      · have h2' : ¬ (goodRelevantSpec (r.get "relevant") = true) := by
          rw [← checkRelevant_none_iff]; simp [h2]
        simp [h2', errField, vErrOf]
    · have h1' : ¬ (goodVersionSpec "1.0" (r.get "version") = true) := by
        rw [← checkVersion10_none_iff]; simp [h1]
      simp [h1', errField, vErrOf]
  · simp [hobj, errField, vErrOf]

theorem checkVersion20_none_iff (v : JSVal) :
    checkVersion20 v = none ↔ goodVersionSpec "2.0" v = true := by
  unfold checkVersion20 goodVersionSpec
  cases v <;>
    simp [JSVal.isStr, JSVal.strD, JSVal.isMissing, JSVal.eqStr]
  case str s =>
    by_cases h1 : s.jsTrim = "" <;> by_cases h2 : s = "2.0" <;> simp_all

theorem checkMatchCount_none_iff (v : JSVal) :
    checkMatchCount v = none ↔ goodMatchCountSpec v = true := by
  unfold checkMatchCount goodMatchCountSpec
  cases v <;>
    simp [JSVal.isNum, JSVal.numD, JSVal.isMissing]
  case num q =>
    by_cases h1 : q.den = 1 <;> by_cases h2 : q < 0 <;> simp_all

theorem checkTypeOpt_none_iff (v : JSVal) :
    checkTypeOpt v = none ↔ goodTypeOptSpec v = true := by
  unfold checkTypeOpt goodTypeOptSpec
  by_cases h1 : v.isMissing = true <;>
    by_cases h2 : validTypes.any (fun p => v.eqStr p) = true <;> simp_all

/-- The v2.0 validator reports exactly the specification's first failing
field, the per-field checks read in the claimed stage order. -/
theorem errField_validateMatcherResultV2 (r : JSVal) :
    errField (validateMatcherResultV2 r) = specFirstFailV2 r := by
  unfold validateMatcherResultV2 specFirstFailV2
  rw [truthy_object_iff]
  by_cases hobj : isObjV r = true
  · simp only [hobj, Bool.not_true, Bool.false_eq_true, if_false]
    rcases h1 : checkVersion20 (r.get "version") with _ | m1
    · rw [checkVersion20_none_iff] at h1
      simp only [h1, Bool.not_true, Bool.false_eq_true, if_false]
      rcases h2 : checkMatchCount (r.get "matchCount") with _ | m2
      · rw [checkMatchCount_none_iff] at h2
        simp only [h2, Bool.not_true, Bool.false_eq_true, if_false]
        rcases h3 : checkTypeOpt (r.get "type") with _ | m3
        · rw [checkTypeOpt_none_iff] at h3
          simp [h3, errField]
        · have h3' : ¬ (goodTypeOptSpec (r.get "type") = true) := by
            rw [← checkTypeOpt_none_iff]; simp [h3]
          simp [h3', errField, vErrOf]
      · have h2' : ¬ (goodMatchCountSpec (r.get "matchCount") = true) := by
          rw [← checkMatchCount_none_iff]; simp [h2]
        simp [h2', errField, vErrOf]
    · have h1' : ¬ (goodVersionSpec "2.0" (r.get "version") = true) := by
        rw [← checkVersion20_none_iff]; simp [h1]
      simp [h1', errField, vErrOf]
  · simp [hobj, errField, vErrOf]

/-- A result accepted by the v1.0 validator carries the literal version
string `"1.0"`. -/
theorem validateMatcherResult_version (r : JSVal)
    (h : (validateMatcherResult r).isOk = true) :
    (r.get "version").eqStr "1.0" = true := by
  have hf := errField_validateMatcherResult r
  rcases hv : validateMatcherResult r with e | v
  · rw [hv] at h; simp [Except.isOk, Except.toBool] at h
  · rw [hv] at hf
    simp [errField] at hf
    unfold specFirstFailV1 at hf
    by_cases hobj : isObjV r = true
    · rw [if_neg (by simp [hobj])] at hf
      by_cases hver : goodVersionSpec "1.0" (r.get "version") = true
      · unfold goodVersionSpec at hver
        simp only [Bool.and_eq_true] at hver
        exact hver.2
      · rw [if_pos (by simp [hver])] at hf; simp at hf
    · rw [if_pos (by simp [hobj])] at hf; simp at hf

/-- A result accepted by the v2.0 validator carries the literal version
string `"2.0"`. -/
theorem validateMatcherResultV2_version (r : JSVal)
    (h : (validateMatcherResultV2 r).isOk = true) :
    (r.get "version").eqStr "2.0" = true := by
  have hf := errField_validateMatcherResultV2 r
  rcases hv : validateMatcherResultV2 r with e | v
  · rw [hv] at h; simp [Except.isOk, Except.toBool] at h
  · rw [hv] at hf
    simp [errField] at hf
    unfold specFirstFailV2 at hf
    by_cases hobj : isObjV r = true
    · rw [if_neg (by simp [hobj])] at hf
      by_cases hver : goodVersionSpec "2.0" (r.get "version") = true
      · unfold goodVersionSpec at hver
        simp only [Bool.and_eq_true] at hver
        exact hver.2
      · rw [if_pos (by simp [hver])] at hf; simp at hf
    · rw [if_pos (by simp [hobj])] at hf; simp at hf

theorem requireNonEmptyString_isOk (v : JSVal) (f c : String) :
    (requireNonEmptyString v f c).isOk = !(isBadStr v) := by
  unfold requireNonEmptyString isBadStr
  by_cases h1 : v.isMissing = true <;>
    by_cases h2 : v.isStr = true <;>
    by_cases h3 : v.strD.jsTrim = "" <;>
    simp [h1, h2, h3, Except.isOk, Except.toBool]

theorem requireNonEmptyString_ok (v : JSVal) (f c : String) (h : isBadStr v = false) :
    requireNonEmptyString v f c = .ok v.strD := by
  unfold isBadStr at h
  simp only [Bool.or_eq_false_iff, Bool.not_eq_false] at h
  unfold requireNonEmptyString
  simp [h.1.1, h.1.2, h.2]

theorem requireNonEmptyObject_eq (p : JSVal) (f c : String) :
    requireNonEmptyObject p f c =
      (if payloadObjOk p then .ok p
       else .error ⟨f, c ++ ": " ++ f ++ " must be a non-empty object"⟩) := by
  unfold requireNonEmptyObject payloadObjOk
  rcases p with _ | _ | b | q | s | fs <;> try rfl
  rcases fs with _ | ⟨hd, tl⟩ <;> rfl

theorem validatePayload_isOk_eq (p : JSVal) :
    (validatePayload p).isOk =
      (payloadObjOk p && !(isBadStr (p.get "prompt")) && !(isBadStr (p.get "cwd")) &&
        !(isBadStr (p.get "session_id")) && !(isBadStr (p.get "transcript_path")) &&
        !(isBadStr (p.get "permission_mode")) && !(isBadStr (p.get "hook_event_name"))) := by
  unfold validatePayload
  rw [requireNonEmptyObject_eq]
  by_cases hobj : payloadObjOk p = true
  · simp only [hobj, if_true, Bool.true_and]
    by_cases h1 : isBadStr (p.get "prompt") = true
    · rcases hc : requireNonEmptyString (p.get "prompt") "prompt"
          "validateUserPromptSubmitPayload" with e | val
      · simp [h1, Except.isOk, Except.toBool]
      · exfalso
        have := requireNonEmptyString_isOk (p.get "prompt") "prompt"
          "validateUserPromptSubmitPayload"
        rw [hc] at this
        simp [Except.isOk, Except.toBool, h1] at this
    · rw [requireNonEmptyString_ok _ _ _ (by simp_all)]
      simp only [h1, Bool.not_true, Bool.not_false, Bool.true_and]
      by_cases h2 : isBadStr (p.get "cwd") = true
      · rcases hc : requireNonEmptyString (p.get "cwd") "cwd"
            "validateUserPromptSubmitPayload" with e | val
        · simp [h2, Except.isOk, Except.toBool]
        · exfalso
          have := requireNonEmptyString_isOk (p.get "cwd") "cwd"
            "validateUserPromptSubmitPayload"
          rw [hc] at this
          simp [Except.isOk, Except.toBool, h2] at this
      · rw [requireNonEmptyString_ok _ _ _ (by simp_all)]
        simp only [h2, Bool.not_true, Bool.not_false, Bool.true_and]
        by_cases h3 : isBadStr (p.get "session_id") = true
        · rcases hc : requireNonEmptyString (p.get "session_id") "session_id"
              "validateUserPromptSubmitPayload" with e | val
          · simp [h3, Except.isOk, Except.toBool]
          · exfalso
            have := requireNonEmptyString_isOk (p.get "session_id") "session_id"
              "validateUserPromptSubmitPayload"
            rw [hc] at this
            simp [Except.isOk, Except.toBool, h3] at this
        · rw [requireNonEmptyString_ok _ _ _ (by simp_all)]
          simp only [h3, Bool.not_true, Bool.not_false, Bool.true_and]
          by_cases h4 : isBadStr (p.get "transcript_path") = true
          · rcases hc : requireNonEmptyString (p.get "transcript_path") "transcript_path"
                "validateUserPromptSubmitPayload" with e | val
            · simp [h4, Except.isOk, Except.toBool]
            · exfalso
              have := requireNonEmptyString_isOk (p.get "transcript_path") "transcript_path"
                "validateUserPromptSubmitPayload"
              rw [hc] at this
              simp [Except.isOk, Except.toBool, h4] at this
          · rw [requireNonEmptyString_ok _ _ _ (by simp_all)]
            simp only [h4, Bool.not_true, Bool.not_false, Bool.true_and]
            by_cases h5 : isBadStr (p.get "permission_mode") = true
            · rcases hc : requireNonEmptyString (p.get "permission_mode") "permission_mode"
                  "validateUserPromptSubmitPayload" with e | val
              · simp [h5, Except.isOk, Except.toBool]
              · exfalso
                have := requireNonEmptyString_isOk (p.get "permission_mode") "permission_mode"
                  "validateUserPromptSubmitPayload"
                rw [hc] at this
                simp [Except.isOk, Except.toBool, h5] at this
            · rw [requireNonEmptyString_ok _ _ _ (by simp_all)]
              simp only [h5, Bool.not_true, Bool.not_false, Bool.true_and]
              by_cases h6 : isBadStr (p.get "hook_event_name") = true
              · rcases hc : requireNonEmptyString (p.get "hook_event_name") "hook_event_name"
                    "validateUserPromptSubmitPayload" with e | val
                · simp [h6, Except.isOk, Except.toBool]
                · exfalso
                  have := requireNonEmptyString_isOk (p.get "hook_event_name") "hook_event_name"
                    "validateUserPromptSubmitPayload"
                  rw [hc] at this
                  simp [Except.isOk, Except.toBool, h6] at this
              · rw [requireNonEmptyString_ok _ _ _ (by simp_all)]
                simp [h6, Except.isOk, Except.toBool]
  · simp [hobj, Except.isOk, Except.toBool]

theorem mainRun_of_invalid (input : JSVal) (ms : List (MatcherInfo × MatcherBehavior))
    (h : (validatePayload input).isOk = false) : mainRun input ms = ⟨1, none⟩ := by
  unfold mainRun
  rcases hv : validatePayload input with e | payload
  · rfl
  · rw [hv] at h
    simp [Except.isOk, Except.toBool] at h

theorem mainRun_exit_ok (input : JSVal) (ms : List (MatcherInfo × MatcherBehavior))
    (h : (validatePayload input).isOk = true) : (mainRun input ms).exitCode = 0 := by
  unfold mainRun
  rcases hv : validatePayload input with e | payload
  · rw [hv] at h
    simp [Except.isOk, Except.toBool] at h
  · by_cases hl : (runMatchers ms (contextOf payload)).length > 0 <;> simp [hl]

/-- C4: a trigger payload with any of the six mandatory fields missing,
null, non-string, or empty after trimming fails validation, in which case
the run exits 1 without touching any matcher (the outcome is independent of
the matcher list); every run with a valid payload exits 0. -/
theorem payload_gate_fatal_before_matchers :
    (∀ p f, f ∈ mandatoryPayloadFields → isBadStr (p.get f) = true →
      (validatePayload p).isOk = false) ∧
    (∀ p ms ms2, (validatePayload p).isOk = false →
      mainRun p ms = ⟨1, none⟩ ∧ mainRun p ms = mainRun p ms2) ∧
    (∀ p ms, (validatePayload p).isOk = true → (mainRun p ms).exitCode = 0) := by
  refine ⟨?_, ?_, ?_⟩
  · intro p f hf hbad
    rw [validatePayload_isOk_eq]
    unfold mandatoryPayloadFields at hf
    simp only [List.mem_cons, List.not_mem_nil, or_false] at hf
    rcases hf with h | h | h | h | h | h <;> subst h <;> simp [hbad]
  · intro p ms ms2 h
    exact ⟨mainRun_of_invalid p ms h, by
      rw [mainRun_of_invalid p ms h, mainRun_of_invalid p ms2 h]⟩
  · intro p ms h
    exact mainRun_exit_ok p ms h

/-- Witness for C4: the empty-prompt payload fails validation and the run
exits 1; a complete payload yields exit code 0 even with no matchers. -/
theorem payload_gate_fatal_before_matchers_witness :
    (validatePayload (.obj [("prompt", .str "   "), ("cwd", .str "/w"),
      ("session_id", .str "s"), ("transcript_path", .str "/t"),
      ("permission_mode", .str "ask"), ("hook_event_name", .str "UserPromptSubmit")])).isOk
        = false ∧
    (mainRun (.obj [("prompt", .str "hi"), ("cwd", .str "/w"),
      ("session_id", .str "s"), ("transcript_path", .str "/t"),
      ("permission_mode", .str "ask"), ("hook_event_name", .str "UserPromptSubmit")])
      []).exitCode = 0 := by
  constructor
  · exact payload_gate_fatal_before_matchers.1
      (.obj [("prompt", .str "   "), ("cwd", .str "/w"),
        ("session_id", .str "s"), ("transcript_path", .str "/t"),
        ("permission_mode", .str "ask"), ("hook_event_name", .str "UserPromptSubmit")])
      "prompt" (by simp [mandatoryPayloadFields]) (by rfl)
  · exact payload_gate_fatal_before_matchers.2.2
      (.obj [("prompt", .str "hi"), ("cwd", .str "/w"),
        ("session_id", .str "s"), ("transcript_path", .str "/t"),
        ("permission_mode", .str "ask"), ("hook_event_name", .str "UserPromptSubmit")])
      [] (by rfl)

theorem runMatchers_append (l1 l2 : List (MatcherInfo × MatcherBehavior))
    (context : MatcherArguments) :
    runMatchers (l1 ++ l2) context = runMatchers l1 context ++ runMatchers l2 context := by
  induction l1 with
  | nil => simp [runMatchers]
  | cons hd tl ih =>
    rcases hd with ⟨info, b⟩
    rcases b with _ | _ | f
    · simpa [runMatchers] using ih
    · simpa [runMatchers] using ih
    · rcases hf : f context with _ | v
      · simpa [runMatchers, hf] using ih
      · rcases hv : validateMatcherResult v with e | r
        · simpa [runMatchers, hf, hv] using ih
        · by_cases hrel : (r.get "relevant").truthy = true <;>
            simp [runMatchers, hf, hv, hrel, ih]

theorem runMatchers_skip (info : MatcherInfo) (b : MatcherBehavior)
    (rest : List (MatcherInfo × MatcherBehavior)) (context : MatcherArguments)
    (h : failsWith context b = true) :
    runMatchers ((info, b) :: rest) context = runMatchers rest context := by
  rcases b with _ | _ | f
  · simp [runMatchers]
  · simp [runMatchers]
  · simp only [failsWith] at h
    rcases hf : f context with _ | v
    · simp [runMatchers, hf]
    · rw [hf] at h
      have h2 : (!(validateMatcherResult v).isOk) = true := h
      rcases hv : validateMatcherResult v with e | r
      · simp [runMatchers, hf, hv]
      · rw [hv] at h2
        simp [Except.isOk, Except.toBool] at h2

/-- C1: a matcher that fails to load, exports nothing callable, throws
during invocation, or returns a schema-invalid result is skipped: the run
behaves exactly as if that matcher were absent, every other matcher's
evaluation and the emitted reply are unchanged, and the exit code is 0. -/
theorem failed_matcher_isolated :
    ∀ input payload pre post info b,
      validatePayload input = .ok payload →
      failsWith (contextOf payload) b = true →
      runMatchers (pre ++ (info, b) :: post) (contextOf payload) =
        runMatchers (pre ++ post) (contextOf payload) ∧
      mainRun input (pre ++ (info, b) :: post) = mainRun input (pre ++ post) ∧
      (mainRun input (pre ++ (info, b) :: post)).exitCode = 0 := by
  intro input payload pre post info b hpay hfail
  have hrun : runMatchers (pre ++ (info, b) :: post) (contextOf payload) =
      runMatchers (pre ++ post) (contextOf payload) := by
    rw [runMatchers_append, runMatchers_append,
      runMatchers_skip info b post (contextOf payload) hfail]
  have hok : (validatePayload input).isOk = true := by
    rw [hpay]; rfl
  refine ⟨hrun, ?_, mainRun_exit_ok _ _ hok⟩
  unfold mainRun
  rw [hpay]
  simp only [hrun]

/-- Witness for C1: alongside a matcher whose result fails validation, a
healthy matcher still produces its item and the run exits 0. -/
theorem failed_matcher_isolated_witness :
    runMatchers
      ([] ++ (⟨"bad", "/p/bad", "skill"⟩, .callable (fun _ => .returns (.obj []))) ::
        [(⟨"good", "/p/good", "skill"⟩, .callable (fun _ => .returns (.obj
          [("version", .str "1.0"), ("relevant", .bool true),
           ("priority", .str "high"), ("relevance", .str "high")])))])
      (contextOf ⟨"s", "/t", "/w", "ask", "UserPromptSubmit", "hi"⟩) =
      runMatchers
        ([] ++ [(⟨"good", "/p/good", "skill"⟩, .callable (fun _ => .returns (.obj
          [("version", .str "1.0"), ("relevant", .bool true),
           ("priority", .str "high"), ("relevance", .str "high")])))])
        (contextOf ⟨"s", "/t", "/w", "ask", "UserPromptSubmit", "hi"⟩) ∧
    (mainRun (.obj [("prompt", .str "hi"), ("cwd", .str "/w"),
      ("session_id", .str "s"), ("transcript_path", .str "/t"),
      ("permission_mode", .str "ask"), ("hook_event_name", .str "UserPromptSubmit")])
      ([] ++ (⟨"bad", "/p/bad", "skill"⟩, .callable (fun _ => .returns (.obj []))) ::
        [(⟨"good", "/p/good", "skill"⟩, .callable (fun _ => .returns (.obj
          [("version", .str "1.0"), ("relevant", .bool true),
           ("priority", .str "high"), ("relevance", .str "high")])))])).exitCode = 0 := by
  have h := failed_matcher_isolated
    (.obj [("prompt", .str "hi"), ("cwd", .str "/w"),
      ("session_id", .str "s"), ("transcript_path", .str "/t"),
      ("permission_mode", .str "ask"), ("hook_event_name", .str "UserPromptSubmit")])
    ⟨"s", "/t", "/w", "ask", "UserPromptSubmit", "hi"⟩
    []
    [(⟨"good", "/p/good", "skill"⟩, .callable (fun _ => .returns (.obj
      [("version", .str "1.0"), ("relevant", .bool true),
       ("priority", .str "high"), ("relevance", .str "high")])))]
    ⟨"bad", "/p/bad", "skill"⟩
    (.callable (fun _ => .returns (.obj [])))
    (by rfl) (by rfl)
  exact ⟨h.1, h.2.2⟩

/-- C6: a stdout reply exists iff at least one item survives; when present
it is exactly the structured object with `hookEventName` equal to
`UserPromptSubmit` and `additionalContext` the formatted string; both
formatters return the empty string on an empty or missing item list. -/
theorem reply_iff_survivors :
    (∀ input payload ms, validatePayload input = .ok payload →
      (runMatchers ms (contextOf payload) = [] → mainRun input ms = ⟨0, none⟩) ∧
      (runMatchers ms (contextOf payload) ≠ [] →
        mainRun input ms = ⟨0, some ⟨"UserPromptSubmit",
          formatActiveSkillsAsDirective (some (runMatchers ms (contextOf payload)))⟩⟩)) ∧
    formatActiveSkillsAsDirective none = "" ∧
    formatActiveSkillsAsDirective (some []) = "" ∧
    formatActiveSkillsAsDirectiveV2 none = "" ∧
    formatActiveSkillsAsDirectiveV2 (some []) = "" := by
  refine ⟨?_, rfl, rfl, rfl, rfl⟩
  intro input payload ms hpay
  constructor
  · intro hempty
    unfold mainRun
    rw [hpay]
    simp [hempty]
  · intro hne
    unfold mainRun
    rw [hpay]
    have : (runMatchers ms (contextOf payload)).length > 0 := by
      cases h : runMatchers ms (contextOf payload) with
      | nil => exact absurd h hne
      | cons a t => simp [h]
    simp [this]

/-- Witness for C6: with one relevant matcher the reply carries the
formatted directive; with none, the run is silent. -/
theorem reply_iff_survivors_witness :
    mainRun (.obj [("prompt", .str "hi"), ("cwd", .str "/w"),
      ("session_id", .str "s"), ("transcript_path", .str "/t"),
      ("permission_mode", .str "ask"), ("hook_event_name", .str "UserPromptSubmit")])
      [] = ⟨0, none⟩ := by
  exact (reply_iff_survivors.1
    (.obj [("prompt", .str "hi"), ("cwd", .str "/w"),
      ("session_id", .str "s"), ("transcript_path", .str "/t"),
      ("permission_mode", .str "ask"), ("hook_event_name", .str "UserPromptSubmit")])
    ⟨"s", "/t", "/w", "ask", "UserPromptSubmit", "hi"⟩
    [] (by rfl)).1 (by rfl)

/-- C9: the pipeline is a function of its inputs — two runs over the same
payload, matcher list and matcher behaviours produce the same surviving
item order, the same formatted text and the same reply. -/
theorem pipeline_deterministic :
    (∀ input ms out1 out2, out1 = mainRun input ms → out2 = mainRun input ms →
      out1 = out2 ∧ out1.stdout = out2.stdout) ∧
    (∀ ms context r1 r2, r1 = runMatchers ms context → r2 = runMatchers ms context →
      r1 = r2 ∧ formatActiveSkillsAsDirective (some r1) =
        formatActiveSkillsAsDirective (some r2)) := by
  constructor
  · intro input ms out1 out2 h1 h2
    subst h1; subst h2
    exact ⟨rfl, rfl⟩
  · intro ms context r1 r2 h1 h2
    subst h1; subst h2
    exact ⟨rfl, rfl⟩

/-- Witness for C9: two literal runs of the empty pipeline agree. -/
theorem pipeline_deterministic_witness :
    mainRun (.obj [("prompt", .str "hi")]) [] = mainRun (.obj [("prompt", .str "hi")]) [] := by
  exact (pipeline_deterministic.1 (.obj [("prompt", .str "hi")]) []
    (mainRun (.obj [("prompt", .str "hi")]) [])
    (mainRun (.obj [("prompt", .str "hi")]) []) rfl rfl).1

theorem isOk_eq_errField_isNone (e : Except VErr JSVal) :
    e.isOk = (errField e).isNone := by
  cases e <;> simp [errField, Except.isOk, Except.toBool]

/-- C10: the v1.0 validator never examines `type` (the outcome depends only
on the object check and the four checked fields), the handler copies a
truthy result `type` verbatim into the emitted item and falls back to the
path-detected type on any falsy `type`, an arbitrary non-enum `type` value
still validates, and a non-enum `type` string reaches the formatted
output. -/
theorem type_field_unchecked_and_copied :
    (∀ r1 r2 : JSVal, isObjV r1 = true → isObjV r2 = true →
      r1.get "version" = r2.get "version" → r1.get "relevant" = r2.get "relevant" →
      r1.get "priority" = r2.get "priority" → r1.get "relevance" = r2.get "relevance" →
      errField (validateMatcherResult r1) = errField (validateMatcherResult r2) ∧
        (validateMatcherResult r1).isOk = (validateMatcherResult r2).isOk) ∧
    (∀ info f v r context, f context = .returns v → validateMatcherResult v = .ok r →
      (r.get "relevant").truthy = true → (r.get "type").truthy = true →
      runMatchers [(info, .callable f)] context =
        [⟨info.name, (r.get "priority").strD, (r.get "relevance").strD, r.get "type"⟩]) ∧
    (∀ info f v r context, f context = .returns v → validateMatcherResult v = .ok r →
      (r.get "relevant").truthy = true → (r.get "type").truthy = false →
      runMatchers [(info, .callable f)] context =
        [⟨info.name, (r.get "priority").strD, (r.get "relevance").strD,
          .str info.detectedType⟩]) ∧
    (validateMatcherResult (.obj [("version", .str "1.0"), ("relevant", .bool true),
      ("priority", .str "low"), ("relevance", .str "high"),
      ("type", .num 5)])).isOk = true ∧
    strContains (formatActiveSkillsAsDirective
      (some [⟨"deploy", "low", "high", .str "command"⟩])) "(command)" = true := by
  refine ⟨?_, ?_, ?_, by rfl, by rfl⟩
  · intro r1 r2 hobj1 hobj2 hver hrel hpri hrev
    have heq : specFirstFailV1 r1 = specFirstFailV1 r2 := by
      unfold specFirstFailV1
      rw [hver, hrel, hpri, hrev, hobj1, hobj2]
    refine ⟨?_, ?_⟩
    · rw [errField_validateMatcherResult, errField_validateMatcherResult, heq]
    · rw [isOk_eq_errField_isNone, isOk_eq_errField_isNone,
        errField_validateMatcherResult, errField_validateMatcherResult, heq]
  · intro info f v r context hf hv hrel htype
    simp [runMatchers, hf, hv, hrel, htype]
  · intro info f v r context hf hv hrel htype
    simp [runMatchers, hf, hv, hrel, htype]

/-- Witness for C10: a result whose `type` is the non-enum string
`command` passes validation and the item copies it verbatim. -/
theorem type_field_unchecked_and_copied_witness :
    runMatchers [(⟨"deploy", "/p/deploy", "skill"⟩, .callable (fun _ => .returns (.obj
      [("version", .str "1.0"), ("relevant", .bool true), ("priority", .str "low"),
       ("relevance", .str "high"), ("type", .str "command")])))]
      (contextOf ⟨"s", "/t", "/w", "ask", "UserPromptSubmit", "hi"⟩) =
      [⟨"deploy", "low", "high", .str "command"⟩] := by
  have h := type_field_unchecked_and_copied.2.1
    ⟨"deploy", "/p/deploy", "skill"⟩
    (fun _ => .returns (.obj
      [("version", .str "1.0"), ("relevant", .bool true), ("priority", .str "low"),
       ("relevance", .str "high"), ("type", .str "command")]))
    (.obj [("version", .str "1.0"), ("relevant", .bool true), ("priority", .str "low"),
       ("relevance", .str "high"), ("type", .str "command")])
    (.obj [("version", .str "1.0"), ("relevant", .bool true), ("priority", .str "low"),
       ("relevance", .str "high"), ("type", .str "command")])
    (contextOf ⟨"s", "/t", "/w", "ask", "UserPromptSubmit", "hi"⟩)
    rfl (by rfl) (by rfl) (by rfl)
  simpa using h

/-- Counterexample to C5: two discovered paths for the same skill name
`foo`, one under a project-level root and one under a user-level root, both
survive the handler's mapping — two records with the identical
`(kind, name)` pair `(skill, foo)`, not at most one. -/
theorem no_dedup_counterexample :
    ((matcherFilesOfPaths
      ["/proj/.claude/skills/foo/rio/UserPromptSubmit.matcher.cjs",
       "/home/u/.claude/skills/foo/rio/UserPromptSubmit.matcher.cjs"]).filter
        (fun i => i.name == "foo" && i.detectedType == "skill")).length = 2 := by
  rfl

/-- C5 amended: Discovery performs no deduplication at all — the mapping
produces exactly one record per discovered path, in path-list order
(project-root paths merely precede user-root paths in the `find` output),
so duplicate `(kind, name)` pairs all survive and are all evaluated. -/
theorem no_dedup_amended :
    ∀ paths : List String,
      (matcherFilesOfPaths paths).length = paths.length ∧
      (∀ j : ℕ, j < paths.length →
        (matcherFilesOfPaths paths)[j]? = (paths[j]?).map matcherFileOfPath) := by
  intro paths
  refine ⟨by simp [matcherFilesOfPaths], ?_⟩
  intro j hj
  simp [matcherFilesOfPaths]

/-- Witness for the amended C5: the two same-name records are mapped one
per path and both survive. -/
theorem no_dedup_amended_witness :
    (matcherFilesOfPaths
      ["/proj/.claude/skills/foo/rio/UserPromptSubmit.matcher.cjs",
       "/home/u/.claude/skills/foo/rio/UserPromptSubmit.matcher.cjs"]).length = 2 ∧
    (matcherFilesOfPaths
      ["/proj/.claude/skills/foo/rio/UserPromptSubmit.matcher.cjs",
       "/home/u/.claude/skills/foo/rio/UserPromptSubmit.matcher.cjs"])[0]? =
      some (matcherFileOfPath "/proj/.claude/skills/foo/rio/UserPromptSubmit.matcher.cjs") := by
  have h := no_dedup_amended
    ["/proj/.claude/skills/foo/rio/UserPromptSubmit.matcher.cjs",
     "/home/u/.claude/skills/foo/rio/UserPromptSubmit.matcher.cjs"]
  exact ⟨h.1, by rw [h.2 0 (by decide)]; rfl⟩

/-- C7 (divergence evidence): the fast filter searches both roots for the
skill and agent kinds and silently skips missing roots, but a command
matcher — which the repository documentation and the Windows variant say is
discovered — is never found by hook.sh: with only
`/proj/.claude/commands/deploy.rio.matcher.cjs` on disk the script exits
without launching Node. The second conjunct shows the all-roots-missing
case is silent, and the last two show both skills roots and both agents
roots are searched (project before user). -/
theorem hook_sh_skips_commands_root :
    hookSh ⟨[("/proj/.claude/commands", ["deploy.rio.matcher.cjs"])]⟩ "/proj" "/home/u" =
      ⟨false, []⟩ ∧
    hookSh ⟨[]⟩ "/proj" "/home/u" = ⟨false, []⟩ ∧
    hookSh ⟨[("/proj/.claude/skills", ["bar/rio/UserPromptSubmit.matcher.cjs"]),
      ("/home/u/.claude/skills", ["foo/rio/UserPromptSubmit.matcher.cjs"])]⟩
      "/proj" "/home/u" =
      ⟨true, ["/proj/.claude/skills/bar/rio/UserPromptSubmit.matcher.cjs",
        "/home/u/.claude/skills/foo/rio/UserPromptSubmit.matcher.cjs"]⟩ ∧
    hookSh ⟨[("/proj/.claude/agents", ["a.rio.matcher.cjs"]),
      ("/home/u/.claude/agents", ["b.rio.matcher.cjs"])]⟩ "/proj" "/home/u" =
      ⟨true, ["/proj/.claude/agents/a.rio.matcher.cjs",
        "/home/u/.claude/agents/b.rio.matcher.cjs"]⟩ := by
  refine ⟨rfl, rfl, rfl, rfl⟩

theorem relevanceOrder_eq0 (x : String) : (relevanceOrder x == 0) = (x == "high") := by
  unfold relevanceOrder
  by_cases h1 : x = "high" <;> by_cases h2 : x = "medium" <;> by_cases h3 : x = "low" <;>
    simp_all

theorem relevanceOrder_eq1 (x : String) : (relevanceOrder x == 1) = (x == "medium") := by
  unfold relevanceOrder
  by_cases h1 : x = "high" <;> by_cases h2 : x = "medium" <;> by_cases h3 : x = "low" <;>
    simp_all

theorem relevanceOrder_eq2 (x : String) : (relevanceOrder x == 2) = (x == "low") := by
  unfold relevanceOrder
  by_cases h1 : x = "high" <;> by_cases h2 : x = "medium" <;> by_cases h3 : x = "low" <;>
    simp_all

theorem sortByRelevance_eq_buckets (l : List ActiveSkill)
    (h : ∀ s ∈ l, s.relevance = "high" ∨ s.relevance = "medium" ∨ s.relevance = "low") :
    sortByRelevance l =
      l.filter (fun s => s.relevance == "high") ++
        l.filter (fun s => s.relevance == "medium") ++
        l.filter (fun s => s.relevance == "low") := by
  unfold sortByRelevance
  have h0 : l.filter (fun s => relevanceOrder s.relevance == 0) =
      l.filter (fun s => s.relevance == "high") :=
    List.filter_congr (fun s _ => relevanceOrder_eq0 s.relevance)
  have h1 : l.filter (fun s => relevanceOrder s.relevance == 1) =
      l.filter (fun s => s.relevance == "medium") :=
    List.filter_congr (fun s _ => relevanceOrder_eq1 s.relevance)
  have h2 : l.filter (fun s => relevanceOrder s.relevance == 2) =
      l.filter (fun s => s.relevance == "low") :=
    List.filter_congr (fun s _ => relevanceOrder_eq2 s.relevance)
  have h3 : l.filter (fun s => relevanceOrder s.relevance == 3) = [] := by
    rw [List.filter_eq_nil_iff]
    intro s hs
    rcases h s hs with hr | hr | hr <;> simp [relevanceOrder, hr]
  rw [h0, h1, h2, h3, List.append_nil]

/-- C8: for validated items (priority and relevance inside their enums) the
legacy formatter renders items grouped by priority tier in the order
critical, high, medium, low, within each tier ordered by relevance high,
medium, low, and items of equal priority and relevance keep their input
order — exactly the specification ordering `specC8Order`. -/
theorem legacy_order_eq_spec_order :
    ∀ items : List ActiveSkill,
      (∀ s ∈ items, s.priority ∈ validPriorities ∧ s.relevance ∈ validRelevances) →
      orderedItems items = specC8Order items := by
  intro items h
  have hrel : ∀ p : String, ∀ s ∈ items.filter (fun s => s.priority == p),
      s.relevance = "high" ∨ s.relevance = "medium" ∨ s.relevance = "low" := by
    intro p s hs
    have hs' := (List.mem_filter.mp hs).1
    have := (h s hs').2
    simpa [validRelevances] using this
  unfold orderedItems specC8Order criticalGroup highGroup mediumGroup lowGroup
  rw [sortByRelevance_eq_buckets _ (hrel "critical"),
    sortByRelevance_eq_buckets _ (hrel "high"),
    sortByRelevance_eq_buckets _ (hrel "medium"),
    sortByRelevance_eq_buckets _ (hrel "low")]
  simp [List.append_assoc]

/-- Witness for C8: a mixed four-item list is reordered to critical-first,
then by relevance, with the stable input order inside equal pairs. -/
theorem legacy_order_eq_spec_order_witness :
    orderedItems
      [⟨"a", "low", "low", .str "skill"⟩, ⟨"b", "critical", "medium", .str "skill"⟩,
       ⟨"c", "critical", "high", .str "agent"⟩, ⟨"d", "critical", "medium", .str "skill"⟩] =
      specC8Order
        [⟨"a", "low", "low", .str "skill"⟩, ⟨"b", "critical", "medium", .str "skill"⟩,
         ⟨"c", "critical", "high", .str "agent"⟩, ⟨"d", "critical", "medium", .str "skill"⟩] := by
  exact legacy_order_eq_spec_order
    [⟨"a", "low", "low", .str "skill"⟩, ⟨"b", "critical", "medium", .str "skill"⟩,
     ⟨"c", "critical", "high", .str "agent"⟩, ⟨"d", "critical", "medium", .str "skill"⟩]
    (by intro s hs; fin_cases hs <;> simp [validPriorities, validRelevances])

theorem insertByScore_perm (x : RankedItem) (l : List RankedItem) :
    (insertByScore x l).Perm (x :: l) := by
  induction l with
  | nil => simp [insertByScore]
  | cons y t ih =>
    unfold insertByScore
    by_cases h : y.score < x.score
    · simp [h]
    · simp only [h, if_false]
      exact (List.Perm.cons y ih).trans (List.Perm.swap x y t)

theorem rankByScore_perm (l : List RankedItem) : (rankByScore l).Perm l := by
  induction l with
  | nil => simp [rankByScore]
  | cons x t ih =>
    unfold rankByScore
    exact (insertByScore_perm x (rankByScore t)).trans (List.Perm.cons x ih)

theorem capped_le_foldr (l : List V2Result) (r : V2Result) (hr : r ∈ l) :
    cappedCount r.matchCount ≤
      l.foldr (fun r acc => max (cappedCount r.matchCount) acc) 0 := by
  induction l with
  | nil => cases hr
  | cons a t ih =>
    rcases List.mem_cons.mp hr with h | h
    · subst h; simp
    · exact le_trans (ih h) (by simp)

theorem foldr_max_attained (l : List V2Result) (hne : l ≠ []) :
    ∃ r ∈ l, cappedCount r.matchCount =
      l.foldr (fun r acc => max (cappedCount r.matchCount) acc) 0 := by
  induction l with
  | nil => exact absurd rfl hne
  | cons a t ih =>
    rcases t with _ | ⟨b, t2⟩
    · exact ⟨a, List.mem_singleton.mpr rfl, by simp⟩
    · rcases ih (by simp) with ⟨r, hrmem, hreq⟩
      rcases le_total ((b :: t2).foldr (fun r acc => max (cappedCount r.matchCount) acc) 0)
          (cappedCount a.matchCount) with hle | hle
      · refine ⟨a, List.mem_cons_self a _, ?_⟩
        rw [List.foldr_cons]
        omega
      · refine ⟨r, List.mem_cons_of_mem a hrmem, ?_⟩
        rw [List.foldr_cons, hreq]
        omega

theorem maxCapped_pos (rs : List V2Result) (r : V2Result)
    (hr : r ∈ candidatesV2 rs) : 1 ≤ maxCappedCount rs := by
  have h1 : 1 ≤ cappedCount r.matchCount := by
    have := (List.mem_filter.mp hr).2
    simp only [decide_eq_true_eq] at this
    unfold cappedCount
    omega
  exact le_trans h1 (capped_le_foldr (candidatesV2 rs) r hr)

/-- C2: in the current (v2.0) scheme a result is a ranking candidate iff
its matchCount is positive; counts are capped at 10 before scoring; each
score is the capped count divided by the maximum capped count, so some
candidate always scores exactly 1 and no score exceeds 1; a sole candidate
with matchCount 50 ranks identically to one with matchCount 10; and counts
8 and 4 yield scores 1 and 1/2 in that order. -/
theorem current_scoring_spec :
    (∀ rs, (rankMatcherResults rs).Perm (scoreResults rs)) ∧
    (∀ rs, (rankMatcherResults rs).length =
      (rs.filter (fun r => 0 < r.matchCount)).length) ∧
    (∀ rs item, item ∈ scoreResults rs → ∃ r, r ∈ rs ∧ 0 < r.matchCount ∧
      item.name = r.name ∧ item.type = r.type ∧
      item.score = (cappedCount r.matchCount : ℚ) / (maxCappedCount rs : ℚ)) ∧
    (∀ rs r, r ∈ rs → 0 < r.matchCount →
      (∃ item ∈ rankMatcherResults rs, item.score = 1) ∧
      (∀ item ∈ rankMatcherResults rs, item.score ≤ 1)) ∧
    (∀ n t, rankMatcherResults [⟨n, 50, t⟩] = rankMatcherResults [⟨n, 10, t⟩]) ∧
    (∀ n1 t1 n2 t2, rankMatcherResults [⟨n1, 8, t1⟩, ⟨n2, 4, t2⟩] =
      [⟨n1, t1, 1⟩, ⟨n2, t2, (1 : ℚ)/2⟩]) := by
  have hperm : ∀ rs, (rankMatcherResults rs).Perm (scoreResults rs) :=
    fun rs => rankByScore_perm (scoreResults rs)
  have hmem : ∀ rs item, item ∈ scoreResults rs → ∃ r, r ∈ rs ∧ 0 < r.matchCount ∧
      item.name = r.name ∧ item.type = r.type ∧
      item.score = (cappedCount r.matchCount : ℚ) / (maxCappedCount rs : ℚ) := by
    intro rs item hitem
    rcases List.mem_map.mp hitem with ⟨r, hrmem, hreq⟩
    have hf := List.mem_filter.mp hrmem
    refine ⟨r, hf.1, by simpa using hf.2, ?_, ?_, ?_⟩ <;> rw [← hreq]
  refine ⟨hperm, ?_, hmem, ?_, ?_, ?_⟩
  · intro rs
    rw [(hperm rs).length_eq]
    simp [scoreResults, candidatesV2]
  · intro rs r hr hpos
    have hrc : r ∈ candidatesV2 rs := by
      unfold candidatesV2
      exact List.mem_filter.mpr ⟨hr, by simpa using hpos⟩
    have hposmax : (0 : ℚ) < (maxCappedCount rs : ℚ) := by
      have := maxCapped_pos rs r hrc
      exact_mod_cast Nat.lt_of_lt_of_le Nat.zero_lt_one this
    constructor
    · rcases foldr_max_attained (candidatesV2 rs) (List.ne_nil_of_mem hrc) with
        ⟨rmax, hrmaxmem, hrmaxeq⟩
      refine ⟨⟨rmax.name, rmax.type,
        (cappedCount rmax.matchCount : ℚ) / (maxCappedCount rs : ℚ)⟩, ?_, ?_⟩
      · rw [(hperm rs).mem_iff]
        exact List.mem_map.mpr ⟨rmax, hrmaxmem, rfl⟩
      · show (cappedCount rmax.matchCount : ℚ) / (maxCappedCount rs : ℚ) = 1
        rw [show cappedCount rmax.matchCount = maxCappedCount rs from hrmaxeq]
        exact div_self (ne_of_gt hposmax)
    · intro item hitem
      have hitem' : item ∈ scoreResults rs := ((hperm rs).mem_iff).mp hitem
      rcases List.mem_map.mp hitem' with ⟨r2, hr2mem, hr2eq⟩
      have hscore : item.score =
          (cappedCount r2.matchCount : ℚ) / (maxCappedCount rs : ℚ) := by
        rw [← hr2eq]
      rw [hscore, div_le_one hposmax]
      exact_mod_cast capped_le_foldr (candidatesV2 rs) r2 hr2mem
  · intro n t
    rfl
  · intro n1 t1 n2 t2
    show rankByScore (scoreResults [⟨n1, 8, t1⟩, ⟨n2, 4, t2⟩]) = _
    norm_num [scoreResults, candidatesV2, cappedCount, maxCappedCount, rankByScore,
      insertByScore]

/-- Witness for C2: with the sole candidate declaring matchCount 3, the
ranked list has an item scoring exactly 1 and no item above 1. -/
theorem current_scoring_spec_witness :
    (∃ item ∈ rankMatcherResults [⟨"a", 3, "skill"⟩], item.score = 1) ∧
    (∀ item ∈ rankMatcherResults [⟨"a", 3, "skill"⟩], item.score ≤ 1) :=
  current_scoring_spec.2.2.2.1 [⟨"a", 3, "skill"⟩] ⟨"a", 3, "skill"⟩ (by simp) (by decide)

/-- C3: each validator checks its mandatory fields in a fixed order with
the per-field stages presence, primitive type, trimmed non-emptiness, enum
or literal membership, and reports the first failing field; a result that
validates necessarily carries the single currently-active version literal
(`1.0` for the legacy validator, `2.0` for the current one), so any other
version value — including the other known version — is rejected. -/
theorem validator_first_failing_field :
    (∀ r, errField (validateMatcherResult r) = specFirstFailV1 r) ∧
    (∀ r, errField (validateMatcherResultV2 r) = specFirstFailV2 r) ∧
    (∀ r, (validateMatcherResult r).isOk = true → (r.get "version").eqStr "1.0" = true) ∧
    (∀ r, (validateMatcherResultV2 r).isOk = true → (r.get "version").eqStr "2.0" = true) :=
  ⟨errField_validateMatcherResult, errField_validateMatcherResultV2,
    validateMatcherResult_version, validateMatcherResultV2_version⟩

/-- Witness for C3: a well-formed v1.0 result validates and carries the
literal, while the v2.0 validator rejects a v1.0 payload at its `version`
field. -/
theorem validator_first_failing_field_witness :
    ((JSVal.obj [("version", .str "1.0"), ("relevant", .bool false),
      ("priority", .str "low"), ("relevance", .str "low")]).get "version").eqStr "1.0"
        = true ∧
    errField (validateMatcherResultV2 (.obj [("version", .str "1.0"),
      ("matchCount", .num 3)])) = some "version" := by
  constructor
  · exact validator_first_failing_field.2.2.1
      (.obj [("version", .str "1.0"), ("relevant", .bool false),
        ("priority", .str "low"), ("relevance", .str "low")]) (by rfl)
  · rw [validator_first_failing_field.2.1]
    rfl
